import Mathlib

/-!
Verification development for the whisper-asr-mcp transcription pipeline
(`src/server.py`).  The pipeline is shallowly embedded: every external
effect (base64 decoding, filesystem access, the three HTTP collaborators)
is an oracle supplied by an `Env`, and every function additionally returns
the list of effectful calls it performed, so that "no network call is
made" style properties are expressible.  Python truthiness on optional
strings (`if s:` is false for `None` and `""`) is modelled by `pyTruthy`.
Bytes are modelled as `List Nat`.
-/

namespace WhisperAsr

/-- Python truthiness of an `Optional[str]`: `None` and `""` are falsy. -/
def pyTruthy : Option String → Bool
  | none => false
  | some s => s != ""

/-- Python `a or b` for an `Optional[str]` `a` and a default string `b`. -/
def pyOrElse (a : Option String) (b : String) : String :=
  match a with
  | some s => if s != "" then s else b
  | none => b

/-- Python `a or b` where both operands are `Optional[str]`-valued
(the result of `dict.get`): returns `a` when truthy, otherwise `b`. -/
def pyOr (a b : Option String) : Option String :=
  if pyTruthy a then a else b

/-- Lowercasing of one character (the format names involved are ASCII). -/
def pyLowerChar (c : Char) : Char :=
  if 'A' ≤ c && c ≤ 'Z' then Char.ofNat (c.toNat + 32) else c

/-- Python `str.lower()`, character by character. -/
def pyLower (s : String) : String := String.mk (s.data.map pyLowerChar)

/-- Python `os.path.basename` for POSIX paths: the part after the last slash. -/
def pyBasename (p : String) : String :=
  String.mk ((p.data.reverse.takeWhile fun c => c != '/').reverse)

/-- A JSON-ish value as it appears in the result mapping: the pipeline only
ever places strings or `None`/null there. -/
inductive JVal
  | null
  | str (s : String)
  deriving DecidableEq, Repr

/-- The `dict` returned by `transcribe`, as an ordered key/value mapping. -/
abbrev ResultMap := List (String × JVal)

/-- The keys of a result mapping, in order. -/
def keysOf (m : ResultMap) : List String := m.map Prod.fst

/-- Shorthand for the `{"error": msg}` dict. -/
def mkError (msg : String) : ResultMap := [("error", JVal.str msg)]

/-- Coerce the pipeline's `Optional[str]` detected language into the value
stored in the result dict (`None` becomes JSON null). -/
def optStr : Option String → JVal
  | none => JVal.null
  | some s => JVal.str s

/-- The effectful calls a pipeline run can perform.  `decodeB64` and
`fsRead` are local effects; `httpGet`, `postConvert`, `postDetect` and
`postAsr` are network calls. -/
inductive Call
  | decodeB64
  | fsRead (path : String)
  | httpGet (url : String)
  | postConvert (filename : String)
  | postDetect
  | postAsr (params : List (String × String))
  deriving DecidableEq, Repr

/-- Whether a call is the transcode-service call. -/
def Call.isConvert : Call → Bool
  | .postConvert _ => true
  | _ => false

/-- Whether a call is the language-detection call. -/
def Call.isDetect : Call → Bool
  | .postDetect => true
  | _ => false

/-- Whether a call is the transcription (ASR) call. -/
def Call.isAsr : Call → Bool
  | .postAsr _ => true
  | _ => false

/-- Response of the HTTP GET used by `fetch_audio_from_url`. -/
structure UrlResp where
  status : Nat
  content : List Nat
  headers : List (String × String)

/-- Response of the transcoding service (`convert_to_mp3`). -/
structure ConvertResp where
  status : Nat
  content : List Nat

/-- Response of the detection endpoint: `jsonBody = none` models a body on
which `response.json()` raises; otherwise the JSON object's string/null
fields. -/
structure DetectResp where
  status : Nat
  jsonBody : Option (List (String × JVal))

/-- Response of the ASR transcription endpoint; `text` is the raw body. -/
structure AsrResp where
  status : Nat
  text : String

/-- The environment of oracles for every external effect.  An `Except.error`
models a raised transport/decoding exception. -/
structure Env where
  b64decode : String → Except String (List Nat)
  pathExists : String → Bool
  readFile : String → Except String (List Nat)
  httpGet : String → Except String UrlResp
  postConvert : List Nat → String → Except String ConvertResp
  postDetect : List Nat → Except String DetectResp
  postAsr : List Nat → List (String × String) → Except String AsrResp

/-- Model of httpx raise_for_status: it succeeds exactly on 2xx statuses. -/
def is2xx (status : Nat) : Bool := 200 ≤ status && status < 300

/-- The detail string of the `HTTPStatusError` raised by
`raise_for_status` on a non-2xx response. -/
def raiseForStatusMsg (status : Nat) : String :=
  "HTTP status error " ++ toString status

/-- The request arguments of the `transcribe` tool, with their defaults. -/
structure Request where
  audio_base64 : Option String := none
  audio_url : Option String := none
  audio_path : Option String := none
  output_format : String := "text"
  filename : Option String := none

/-- Model of `sum(1 for s in sources if s)` over
`[audio_base64, audio_url, audio_path]`. -/
def provided_sources (req : Request) : Nat :=
  (([req.audio_base64, req.audio_url, req.audio_path].filter
      fun s => pyTruthy s)).length

/-- The `OutputFormat` enum of `server.py`, in declaration order. -/
inductive OutputFormat
  | TEXT
  | JSON
  | VTT
  | SRT
  | TSV
  deriving DecidableEq, Repr

/-- The `.value` of each enum member. -/
def OutputFormat.value : OutputFormat → String
  | .TEXT => "text"
  | .JSON => "json"
  | .VTT => "vtt"
  | .SRT => "srt"
  | .TSV => "tsv"

/-- Model of `OutputFormat(s)`: the enum's lookup-by-value, `none` when the Python
constructor would raise `ValueError`. -/
def OutputFormat.fromValue (s : String) : Option OutputFormat :=
  if s == "text" then some .TEXT
  else if s == "json" then some .JSON
  else if s == "vtt" then some .VTT
  else if s == "srt" then some .SRT
  else if s == "tsv" then some .TSV
  else none

/-- The error message built from
`f"Invalid output_format. Choose from: \x7b[f.value for f in OutputFormat]\x7d"`. -/
def invalidFormatMessage : String :=
  "Invalid output_format. Choose from: [\x27text\x27, \x27json\x27, \x27vtt\x27, \x27srt\x27, \x27tsv\x27]"

/-- The `MP3_SIGNATURES` table of magic byte signatures. -/
def MP3_SIGNATURES : List (List Nat) :=
  [[0xff, 0xfb], [0xff, 0xfa], [0xff, 0xf3], [0xff, 0xf2], [0x49, 0x44, 0x33]]

/-- Model of `is_mp3`: first-match-wins byte-prefix check against `MP3_SIGNATURES`
(`0x49 0x44 0x33` is ASCII `ID3`). -/
def is_mp3 (audio_data : List Nat) : Bool :=
  MP3_SIGNATURES.any fun sig => sig.isPrefixOf audio_data

/-- Model of `convert_to_mp3`: POST the bytes to the ffmpeg service, raise for a
non-2xx status, return the response bytes.  The second component records
the network call performed. -/
def convert_to_mp3 (env : Env) (audio_data : List Nat) (filename : String) :
    Except String (List Nat) × List Call :=
  (match env.postConvert audio_data filename with
   | .error e => .error e
   | .ok r =>
     if is2xx r.status then .ok r.content
     else .error (raiseForStatusMsg r.status),
   [Call.postConvert filename])

/-- Model of `dict.get` on the decoded JSON body as a Python optional string:
a missing key and an explicit null both give `None`. -/
def jsonGetStr (body : List (String × JVal)) (key : String) : Option String :=
  match body.lookup key with
  | none => none
  | some JVal.null => none
  | some (JVal.str s) => some s

/-- Model of `detect_language`: POST the bytes to the detection endpoint; on a 200
response decode JSON and return
`result.get("language_code") or result.get("detected_language")`; on any
other status return `None`.  A transport error or JSON decode error is a
raised exception (`Except.error`). -/
def detect_language (env : Env) (audio_data : List Nat) :
    Except String (Option String) × List Call :=
  (match env.postDetect audio_data with
   | .error e => .error e
   | .ok r =>
     if r.status == 200 then
       match r.jsonBody with
       | none => .error "JSONDecodeError"
       | some body =>
         .ok (pyOr (jsonGetStr body "language_code")
                   (jsonGetStr body "detected_language"))
     else .ok none,
   [Call.postDetect])

/-- The query parameters of the ASR call: `output` always, `language` only
when the language hint is truthy. -/
def asrParams (language : Option String) (output_format : OutputFormat) :
    List (String × String) :=
  [("output", output_format.value)] ++
    (if pyTruthy language then [("language", language.getD "")] else [])

/-- Model of `transcribe_audio_data`: POST the bytes with the query parameters,
raise for a non-2xx status, and return the raw response body (the source's
JSON branch also returns `response.text` unchanged). -/
def transcribe_audio_data (env : Env) (audio_data : List Nat)
    (language : Option String) (output_format : OutputFormat) :
    Except String String × List Call :=
  let params := asrParams language output_format
  (match env.postAsr audio_data params with
   | .error e => .error e
   | .ok r =>
     if is2xx r.status then
       if output_format == OutputFormat.JSON then .ok r.text else .ok r.text
     else .error (raiseForStatusMsg r.status),
   [Call.postAsr params])

/-- Whether the pattern occurs as a substring (`"filename=" in cd`),
via the fact that splitting on an occurring separator yields ≥ 2 pieces. -/
def pyContains (s pat : String) : Bool := (s.splitOn pat).length > 1

/-- Python `str.strip` with the character set of `'"\x27'`. -/
def pyStripQuotes (s : String) : String :=
  let isQ : Char → Bool := fun c => c == '"' || c == '\x27'
  String.mk (((s.data.dropWhile isQ).reverse.dropWhile isQ).reverse)

/-- Model of `fetch_audio_from_url`: GET the URL (following redirects), raise for a
non-2xx status, and derive a filename from the URL's last path segment or
a `content-disposition` header. -/
def fetch_audio_from_url (env : Env) (url : String) :
    Except String (List Nat × String) × List Call :=
  (match env.httpGet url with
   | .error e => .error e
   | .ok r =>
     if is2xx r.status then
       let seg := (((url.splitOn "/").getLastD "").splitOn "?").headD ""
       let fname0 := if seg != "" then seg else "audio"
       let fname :=
         match r.headers.lookup "content-disposition" with
         | none => fname0
         | some cd =>
           if pyContains cd "filename=" then
             pyStripQuotes ((cd.splitOn "filename=").getLastD "")
           else fname0
       .ok (r.content, fname)
     else .error (raiseForStatusMsg r.status),
   [Call.httpGet url])

/-- Outcome of the source-resolution block of `transcribe`: the audio
bytes with the filename, the early `File not found` return, or a caught
exception. -/
inductive GetResult
  | gotData (audio_data : List Nat) (filename : String)
  | earlyReturn (result : ResultMap)
  | raised (msg : String)
  deriving Repr

/-- The `# Get audio data` block of `transcribe`: base64 branch, then the
local-path branch (existence check before read), then the URL branch. -/
def getAudioData (env : Env) (req : Request) : GetResult × List Call :=
  if pyTruthy req.audio_base64 then
    match env.b64decode (req.audio_base64.getD "") with
    | .error e => (.raised e, [Call.decodeB64])
    | .ok d => (.gotData d (pyOrElse req.filename "audio"), [Call.decodeB64])
  else if pyTruthy req.audio_path then
    if !env.pathExists (req.audio_path.getD "") then
      (.earlyReturn (mkError ("File not found: " ++ req.audio_path.getD "")), [])
    else
      match env.readFile (req.audio_path.getD "") with
      | .error e => (.raised e, [Call.fsRead (req.audio_path.getD "")])
      | .ok d =>
        (.gotData d (pyOrElse req.filename (pyBasename (req.audio_path.getD ""))),
         [Call.fsRead (req.audio_path.getD "")])
  else
    match (fetch_audio_from_url env (req.audio_url.getD "")).1 with
    | .error e =>
      (.raised e, (fetch_audio_from_url env (req.audio_url.getD "")).2)
    | .ok (d, fn) =>
      (.gotData d (pyOrElse req.filename fn),
       (fetch_audio_from_url env (req.audio_url.getD "")).2)

/-- The value bound to `detected_language` after the swallowed-exception
detection stage: a raised exception leaves it `None`. -/
def detectOutcome : Except String (Option String) → Option String
  | .ok l => l
  | .error _ => none

/-- The `# Convert to MP3 if needed` step: `if not is_mp3(audio_data):
audio_data = await convert_to_mp3(audio_data, filename)`. -/
def convertIfNeeded (env : Env) (audio_data : List Nat) (filename : String) :
    Except String (List Nat) × List Call :=
  if !(is_mp3 audio_data) then convert_to_mp3 env audio_data filename
  else (.ok audio_data, [])

/-- The tail of `transcribe` once the audio bytes are resolved: conditional
transcoding, best-effort language detection (a raised detection exception is
swallowed by `detectOutcome`), transcription, and result shaping.  `t1` is
the trace accumulated by source resolution. -/
def afterResolve (env : Env) (fmt : OutputFormat) (audio_data : List Nat)
    (filename : String) (t1 : List Call) : ResultMap × List Call :=
  match (convertIfNeeded env audio_data filename).1 with
  | .error e =>
    (mkError ("Failed to convert audio to MP3: " ++ e),
     t1 ++ (convertIfNeeded env audio_data filename).2)
  | .ok audio2 =>
    match (transcribe_audio_data env audio2
            (detectOutcome (detect_language env audio2).1) fmt).1 with
    | .error e =>
      (mkError ("Transcription failed: " ++ e),
       t1 ++ (convertIfNeeded env audio_data filename).2 ++
         (detect_language env audio2).2 ++
         (transcribe_audio_data env audio2
           (detectOutcome (detect_language env audio2).1) fmt).2)
    | .ok transcription =>
      ([("transcription", JVal.str transcription),
        ("detected_language", optStr (detectOutcome (detect_language env audio2).1)),
        ("output_format", JVal.str fmt.value)],
       t1 ++ (convertIfNeeded env audio_data filename).2 ++
         (detect_language env audio2).2 ++
         (transcribe_audio_data env audio2
           (detectOutcome (detect_language env audio2).1) fmt).2)

/-- The `transcribe` tool: arity validation, output-format validation,
source resolution, then `afterResolve` — returning the result dict
together with the trace of effectful calls. -/
def transcribe (env : Env) (req : Request) : ResultMap × List Call :=
  if provided_sources req == 0 then
    (mkError "Provide one of: audio_base64, audio_url, or audio_path", [])
  else if provided_sources req > 1 then
    (mkError "Provide only one of: audio_base64, audio_url, or audio_path", [])
  else
    match OutputFormat.fromValue (pyLower req.output_format) with
    | none => (mkError invalidFormatMessage, [])
    | some fmt =>
      match getAudioData env req with
      | (.earlyReturn m, t1) => (m, t1)
      | (.raised e, t1) => (mkError ("Failed to get audio data: " ++ e), t1)
      | (.gotData audio_data filename, t1) =>
        afterResolve env fmt audio_data filename t1

/-! Concrete environments used by witnesses and counterexamples.  `env0`
fails every external call; `envOk` answers every call successfully, serving
a 4-byte RIFF (non-MP3) file so that the transcode step runs. -/

/-- An environment in which every external effect fails. -/
def env0 : Env where
  b64decode := fun _ => .error "decode error"
  pathExists := fun _ => false
  readFile := fun _ => .error "io error"
  httpGet := fun _ => .error "ConnectError"
  postConvert := fun _ _ => .error "ConnectError"
  postDetect := fun _ => .error "ConnectError"
  postAsr := fun _ _ => .error "ConnectError"

/-- An environment in which every external effect succeeds. -/
def envOk : Env where
  b64decode := fun _ => .ok [0xff, 0xfb, 0x00]
  pathExists := fun _ => true
  readFile := fun _ => .ok [0x52, 0x49, 0x46, 0x46]
  httpGet := fun _ => .ok { status := 200, content := [0x00], headers := [] }
  postConvert := fun _ _ => .ok { status := 200, content := [0xff, 0xfb] }
  postDetect := fun _ =>
    .ok { status := 200, jsonBody := some [("language_code", JVal.str "en")] }
  postAsr := fun _ _ => .ok { status := 200, text := "raw body" }

/-- Like `envOk` but the detection endpoint answers 500 with a non-JSON body. -/
def envDetectMiss : Env :=
  { envOk with postDetect := fun _ => .ok { status := 500, jsonBody := none } }

/-- Like `envOk` but the transcode call raises a transport error. -/
def envConvFail : Env :=
  { envOk with postConvert := fun _ _ => .error "connection refused" }

/-- Like `envOk` but the ASR transcription call raises a transport error. -/
def envAsrFail : Env :=
  { envOk with postAsr := fun _ _ => .error "connection refused" }

/-! Helper lemmas. -/

/-- Two strings differ when the first (a nonempty literal followed by an
arbitrary suffix) begins with a different character than the second. -/
theorem ne_of_head (a p b : String) (ha : a.data ≠ [])
    (h : a.data.head? ≠ b.data.head?) : a ++ p ≠ b := by
  intro hEq
  apply h
  have hd : (a ++ p).data = b.data := by rw [hEq]
  rw [String.data_append] at hd
  rw [← hd]
  cases hA : a.data with
  | nil => exact absurd hA ha
  | cons c cs => simp

/-- Error dicts built from distinct message families are distinct. -/
theorem mkError_append_ne (pre s b : String) (hpre : pre.data ≠ [])
    (h : pre.data.head? ≠ b.data.head?) : mkError (pre ++ s) ≠ mkError b := by
  intro hEq
  simp only [mkError, List.cons.injEq, Prod.mk.injEq, JVal.str.injEq, and_true,
    true_and] at hEq
  exact ne_of_head pre s b hpre h hEq

/-- The early return of source resolution is exactly the `File not found`
error dict, and it performs no effectful call. -/
theorem getAudioData_early (env : Env) (req : Request) (m : ResultMap)
    (t : List Call) (h : getAudioData env req = (.earlyReturn m, t)) :
    m = mkError ("File not found: " ++ req.audio_path.getD "") ∧ t = [] := by
  unfold getAudioData at h
  split at h
  · split at h <;> simp_all
  · split at h
    · split at h
      · simp only [Prod.mk.injEq, GetResult.earlyReturn.injEq] at h
        exact ⟨h.1.symm, h.2.symm⟩
      · split at h <;> simp_all
    · split at h <;> simp_all

/-- Source resolution never performs a transcode, detection or ASR call. -/
theorem getAudioData_trace (env : Env) (req : Request) (g : GetResult)
    (t : List Call) (h : getAudioData env req = (g, t)) :
    t.countP (fun c => c.isConvert) = 0 ∧ t.countP (fun c => c.isDetect) = 0 ∧
      t.countP (fun c => c.isAsr) = 0 := by
  have ht : t = [] ∨ t = [Call.decodeB64] ∨
      (∃ p, t = [Call.fsRead p]) ∨ (∃ u, t = [Call.httpGet u]) := by
    unfold getAudioData at h
    split at h
    · split at h <;> (injection h with h1 h2; exact Or.inr (Or.inl h2.symm))
    · split at h
      · split at h
        · injection h with h1 h2; exact Or.inl h2.symm
        · split at h <;>
            (injection h with h1 h2
             exact Or.inr (Or.inr (Or.inl ⟨_, h2.symm⟩)))
      · split at h <;>
          (injection h with h1 h2
           exact Or.inr (Or.inr (Or.inr ⟨_, h2.symm⟩)))
  rcases ht with rfl | rfl | ⟨p, rfl⟩ | ⟨u, rfl⟩ <;>
    simp [List.countP_cons, Call.isConvert, Call.isDetect, Call.isAsr]

/-- Enum round trip: looking up any member's `.value` finds the member. -/
theorem fromValue_value (f : OutputFormat) :
    OutputFormat.fromValue f.value = some f := by
  cases f <;> rfl

/-- The trace of the conditional transcode step: empty when the sniffer
reports MP3, exactly one transcode call otherwise. -/
theorem convertIfNeeded_trace (env : Env) (d : List Nat) (fn : String) :
    (convertIfNeeded env d fn).2 =
      if is_mp3 d then ([] : List Call) else [Call.postConvert fn] := by
  by_cases h : is_mp3 d <;> simp [convertIfNeeded, convert_to_mp3, h]

/-- When both validations pass and source resolution yields bytes, the
pipeline continues with `afterResolve`. -/
theorem transcribe_gotData (env : Env) (req : Request) (fmt : OutputFormat)
    (d : List Nat) (fn : String) (t1 : List Call)
    (h0 : provided_sources req ≠ 0) (h1 : ¬provided_sources req > 1)
    (h2 : OutputFormat.fromValue (pyLower req.output_format) = some fmt)
    (h3 : getAudioData env req = (.gotData d fn, t1)) :
    transcribe env req = afterResolve env fmt d fn t1 := by
  simp [transcribe, h0, h1, h2, h3]

/-- A failed transcode step yields the conversion error and stops before
detection and transcription. -/
theorem afterResolve_convError (env : Env) (fmt : OutputFormat) (d : List Nat)
    (fn : String) (t1 : List Call) (e : String)
    (hc : (convertIfNeeded env d fn).1 = .error e) :
    afterResolve env fmt d fn t1 =
      (mkError ("Failed to convert audio to MP3: " ++ e),
       t1 ++ (convertIfNeeded env d fn).2) := by
  unfold afterResolve
  split
  · next e2 heq => rw [hc] at heq; injection heq with h; subst h; rfl
  · next a2 heq => rw [hc] at heq; cases heq

/-- After a successful transcode step, a failed ASR call yields the
transcription error; the trace records transcode (if any), detection and
the single ASR call. -/
theorem afterResolve_asrError (env : Env) (fmt : OutputFormat) (d : List Nat)
    (fn : String) (t1 : List Call) (a2 : List Nat) (e : String)
    (hc : (convertIfNeeded env d fn).1 = .ok a2)
    (ht : (transcribe_audio_data env a2
            (detectOutcome (detect_language env a2).1) fmt).1 = .error e) :
    afterResolve env fmt d fn t1 =
      (mkError ("Transcription failed: " ++ e),
       t1 ++ (convertIfNeeded env d fn).2 ++ [Call.postDetect] ++
         [Call.postAsr (asrParams (detectOutcome (detect_language env a2).1) fmt)]) := by
  unfold afterResolve
  split
  · next e2 heq => rw [hc] at heq; cases heq
  · next a2' heq =>
    rw [hc] at heq; injection heq with h; subst h
    split
    · next e2 heq2 => rw [ht] at heq2; injection heq2 with h; subst h; rfl
    · next tr heq2 => rw [ht] at heq2; cases heq2

/-- After a successful transcode step and a successful ASR call, the result
is the success dict; the trace records transcode (if any), detection and
the single ASR call. -/
theorem afterResolve_asrOk (env : Env) (fmt : OutputFormat) (d : List Nat)
    (fn : String) (t1 : List Call) (a2 : List Nat) (tr : String)
    (hc : (convertIfNeeded env d fn).1 = .ok a2)
    (ht : (transcribe_audio_data env a2
            (detectOutcome (detect_language env a2).1) fmt).1 = .ok tr) :
    afterResolve env fmt d fn t1 =
      ([("transcription", JVal.str tr),
        ("detected_language", optStr (detectOutcome (detect_language env a2).1)),
        ("output_format", JVal.str fmt.value)],
       t1 ++ (convertIfNeeded env d fn).2 ++ [Call.postDetect] ++
         [Call.postAsr (asrParams (detectOutcome (detect_language env a2).1) fmt)]) := by
  unfold afterResolve
  split
  · next e2 heq => rw [hc] at heq; cases heq
  · next a2' heq =>
    rw [hc] at heq; injection heq with h; subst h
    split
    · next e2 heq2 => rw [ht] at heq2; cases heq2
    · next tr2 heq2 => rw [ht] at heq2; injection heq2 with h; subst h; rfl

/-- With both validations passed, an unparsable output format yields the
invalid-format error with no effectful call. -/
theorem transcribe_invalidFmt (env : Env) (req : Request)
    (hz : provided_sources req ≠ 0) (hm : ¬provided_sources req > 1)
    (hv : OutputFormat.fromValue (pyLower req.output_format) = none) :
    transcribe env req = (mkError invalidFormatMessage, []) := by
  simp [transcribe, hz, hm, hv]

/-- Once arity and format validation pass, the result is an error from one
of the four downstream message families or the success dict for the parsed
format. -/
theorem transcribe_shape (env : Env) (req : Request) (fmt : OutputFormat)
    (hz : provided_sources req ≠ 0) (hm : ¬provided_sources req > 1)
    (hv : OutputFormat.fromValue (pyLower req.output_format) = some fmt) :
    (∃ pre s, (pre = "Failed to get audio data: " ∨ pre = "File not found: " ∨
               pre = "Failed to convert audio to MP3: " ∨
               pre = "Transcription failed: ") ∧
       (transcribe env req).1 = mkError (pre ++ s)) ∨
    (∃ tr dl, (transcribe env req).1 =
       [("transcription", JVal.str tr), ("detected_language", optStr dl),
        ("output_format", JVal.str fmt.value)]) := by
  rcases hga : getAudioData env req with ⟨g, t1⟩
  cases g with
  | earlyReturn m =>
    obtain ⟨hm1, -⟩ := getAudioData_early env req m t1 hga
    left
    refine ⟨"File not found: ", req.audio_path.getD "", by tauto, ?_⟩
    simp [transcribe, hz, hm, hv, hga, hm1]
  | raised e =>
    left
    refine ⟨"Failed to get audio data: ", e, by tauto, ?_⟩
    simp [transcribe, hz, hm, hv, hga]
  | gotData d fn =>
    rw [transcribe_gotData env req fmt d fn t1 hz hm hv hga]
    rcases hc : (convertIfNeeded env d fn).1 with e | a2
    · left
      refine ⟨"Failed to convert audio to MP3: ", e, by tauto, ?_⟩
      rw [afterResolve_convError env fmt d fn t1 e hc]
    · rcases ht : (transcribe_audio_data env a2
          (detectOutcome (detect_language env a2).1) fmt).1 with e | tr
      · left
        refine ⟨"Transcription failed: ", e, by tauto, ?_⟩
        rw [afterResolve_asrError env fmt d fn t1 a2 e hc ht]
      · right
        refine ⟨tr, detectOutcome (detect_language env a2).1, ?_⟩
        rw [afterResolve_asrOk env fmt d fn t1 a2 tr hc ht]

/-- Claim C1: for every request the returned dict is either exactly the
success shape (keys transcription, detected_language, output_format) or
exactly the failure shape (key error) — never both kinds of keys, never an
additional key — and the embedded `transcribe` is a total function, so no
uncaught exception reaches the caller. -/
theorem claim_C1 (env : Env) (req : Request) :
    keysOf (transcribe env req).1 =
      ["transcription", "detected_language", "output_format"] ∨
    keysOf (transcribe env req).1 = ["error"] := by
  by_cases hz : provided_sources req = 0
  · right; simp [transcribe, hz, keysOf, mkError]
  by_cases hm : provided_sources req > 1
  · right; simp [transcribe, hz, hm, keysOf, mkError]
  rcases hv : OutputFormat.fromValue (pyLower req.output_format) with _ | fmt
  · right; rw [transcribe_invalidFmt env req hz hm hv]; rfl
  rcases transcribe_shape env req fmt hz hm hv with ⟨pre, s, hmem, hres⟩ |
    ⟨tr, dl, hres⟩
  · right; rw [hres]; rfl
  · left; rw [hres]; rfl

/-- Claim C2: with zero or with two-or-more truthy sources, the result is
an error starting with Provide and the call trace is empty (no source
resolution, transcoding, detection or transcription is attempted). -/
theorem claim_C2 (env : Env) (req : Request)
    (h : provided_sources req = 0 ∨ 2 ≤ provided_sources req) :
    (∃ msg, (transcribe env req).1 = mkError msg ∧
      "Provide".data.isPrefixOf msg.data = true) ∧
    (transcribe env req).2 = [] := by
  rcases h with h | h
  · refine ⟨⟨"Provide one of: audio_base64, audio_url, or audio_path",
      ?_, by decide⟩, ?_⟩ <;> simp [transcribe, h]
  · have hz : provided_sources req ≠ 0 := by omega
    have hm : provided_sources req > 1 := h
    refine ⟨⟨"Provide only one of: audio_base64, audio_url, or audio_path",
      ?_, by decide⟩, ?_⟩ <;> simp [transcribe, hz, hm]

/-- Witness for C2 at the all-defaults request (no source at all). -/
theorem claim_C2_witness :
    (provided_sources {} = 0 ∨ 2 ≤ provided_sources {}) ∧
    ((∃ msg, (transcribe env0 {}).1 = mkError msg ∧
        "Provide".data.isPrefixOf msg.data = true) ∧
      (transcribe env0 {}).2 = []) :=
  ⟨Or.inl rfl, claim_C2 env0 {} (Or.inl rfl)⟩

/-- Claim C4: the sniffer accepts exactly byte strings beginning with one
of the four MP3 frame-sync pairs or the 3-byte ASCII ID3 tag header, and
returns false for everything else. -/
theorem claim_C4 (b : List Nat) :
    is_mp3 b = true ↔
      ([0xff, 0xfb].isPrefixOf b = true ∨ [0xff, 0xfa].isPrefixOf b = true ∨
       [0xff, 0xf3].isPrefixOf b = true ∨ [0xff, 0xf2].isPrefixOf b = true ∨
       [Char.toNat 'I', Char.toNat 'D', Char.toNat '3'].isPrefixOf b = true) := by
  have hI : Char.toNat 'I' = 0x49 := rfl
  have hD : Char.toNat 'D' = 0x44 := rfl
  have h3 : Char.toNat '3' = 0x33 := rfl
  rw [hI, hD, h3]
  simp [is_mp3, MP3_SIGNATURES]

/-- Once the arity check passes, neither of the two arity error dicts can
be the result: every later message belongs to a different family. -/
theorem transcribe_ne_provide (env : Env) (req : Request)
    (hz : provided_sources req ≠ 0) (hm : ¬provided_sources req > 1) :
    (transcribe env req).1 ≠
      mkError "Provide one of: audio_base64, audio_url, or audio_path" ∧
    (transcribe env req).1 ≠
      mkError "Provide only one of: audio_base64, audio_url, or audio_path" := by
  rcases hv : OutputFormat.fromValue (pyLower req.output_format) with _ | fmt
  · rw [transcribe_invalidFmt env req hz hm hv]
    constructor <;>
      (intro h
       simp only [mkError, List.cons.injEq, Prod.mk.injEq, JVal.str.injEq,
         and_true, true_and] at h
       exact absurd h (by decide))
  · rcases transcribe_shape env req fmt hz hm hv with ⟨pre, s, hmem, hres⟩ |
      ⟨tr, dl, hres⟩
    · rw [hres]
      rcases hmem with rfl | rfl | rfl | rfl <;>
        exact ⟨mkError_append_ne _ _ _ (by decide) (by decide),
               mkError_append_ne _ _ _ (by decide) (by decide)⟩
    · rw [hres]
      constructor <;> (intro h; simp [mkError] at h)

/-- Counterexample to C3 as frozen: a request with an invalid output
format but zero sources returns the source-arity error, which is not the
error naming the valid format set. -/
theorem claim_C3_cex :
    OutputFormat.fromValue (pyLower "bogus") = none ∧
    (transcribe env0 { output_format := "bogus" }).1 =
      mkError "Provide one of: audio_base64, audio_url, or audio_path" ∧
    "Provide one of: audio_base64, audio_url, or audio_path" ≠
      invalidFormatMessage := by
  exact ⟨rfl, rfl, by decide⟩

/-- Claim C3 (amended with: the request also passes the source-arity
check): with exactly one source, an output format whose lowercasing is not
a valid format name yields exactly the invalid-format error naming the
valid set, with an empty call trace (before any I/O and without any
network call); conversely any casing of a valid format name parses
successfully and the invalid-format error cannot be the result. -/
theorem claim_C3 (env : Env) (req : Request)
    (h1 : provided_sources req = 1) :
    (OutputFormat.fromValue (pyLower req.output_format) = none →
      transcribe env req = (mkError invalidFormatMessage, [])) ∧
    (∀ f : OutputFormat, pyLower req.output_format = f.value →
      OutputFormat.fromValue (pyLower req.output_format) = some f ∧
      (transcribe env req).1 ≠ mkError invalidFormatMessage) := by
  have hz : provided_sources req ≠ 0 := by omega
  have hm : ¬provided_sources req > 1 := by omega
  constructor
  · exact fun hv => transcribe_invalidFmt env req hz hm hv
  · intro f hf
    have hv : OutputFormat.fromValue (pyLower req.output_format) = some f := by
      rw [hf]; exact fromValue_value f
    refine ⟨hv, ?_⟩
    rcases transcribe_shape env req f hz hm hv with ⟨pre, s, hmem, hres⟩ |
      ⟨tr, dl, hres⟩
    · rw [hres]
      rcases hmem with rfl | rfl | rfl | rfl <;>
        exact mkError_append_ne _ _ _ (by decide) (by decide)
    · rw [hres]; intro h; simp [mkError] at h

/-- Witness for C3 at a one-source request with an invalid format. -/
theorem claim_C3_witness :
    provided_sources { audio_path := some "/a.wav", output_format := "xml" } = 1 ∧
    transcribe env0 { audio_path := some "/a.wav", output_format := "xml" } =
      (mkError invalidFormatMessage, []) :=
  ⟨rfl,
   (claim_C3 env0 { audio_path := some "/a.wav", output_format := "xml" }
     rfl).1 rfl⟩

/-- Counterexample to C8 as frozen: a request whose sole source is a
nonexistent path but whose output format is invalid returns the
invalid-format error, not the file-not-found error. -/
theorem claim_C8_cex :
    (transcribe env0
        { audio_path := some "/missing.mp3", output_format := "bogus" }).1 =
      mkError invalidFormatMessage ∧
    mkError invalidFormatMessage ≠
      mkError ("File not found: " ++ "/missing.mp3") := by
  refine ⟨rfl, ?_⟩
  intro h
  simp only [mkError, List.cons.injEq, Prod.mk.injEq, JVal.str.injEq,
    and_true, true_and] at h
  exact absurd h (by decide)

/-- Claim C8 (amended with: the output format is valid): for a request
supplying a truthy audio_path as its sole source and a parsable output
format, when the path does not exist the result is exactly the
file-not-found error with the supplied path interpolated, and the call
trace is empty — existence is checked before any read, and zero network
calls are made. -/
theorem claim_C8 (env : Env) (req : Request)
    (h1 : pyTruthy req.audio_base64 = false)
    (h2 : pyTruthy req.audio_path = true)
    (h3 : pyTruthy req.audio_url = false)
    (h4 : (OutputFormat.fromValue (pyLower req.output_format)).isSome = true)
    (h5 : env.pathExists (req.audio_path.getD "") = false) :
    transcribe env req =
      (mkError ("File not found: " ++ req.audio_path.getD ""), []) := by
  have hprov : provided_sources req = 1 := by
    simp [provided_sources, h1, h2, h3]
  have hz : provided_sources req ≠ 0 := by omega
  have hm : ¬provided_sources req > 1 := by omega
  obtain ⟨fmt, hv⟩ := Option.isSome_iff_exists.mp h4
  have hga : getAudioData env req =
      (.earlyReturn (mkError ("File not found: " ++ req.audio_path.getD "")),
       []) := by
    simp [getAudioData, h1, h2, h5]
  simp [transcribe, hz, hm, hv, hga]

/-- Witness for C8: a nonexistent path with the default format. -/
theorem claim_C8_witness :
    env0.pathExists "/missing.mp3" = false ∧
    transcribe env0 { audio_path := some "/missing.mp3" } =
      (mkError ("File not found: " ++ "/missing.mp3"), []) :=
  ⟨rfl,
   claim_C8 env0 { audio_path := some "/missing.mp3" } rfl rfl rfl rfl rfl⟩

/-- Claim C10: source presence goes by string truthiness, not
non-None-ness, in every one of the three source fields — any request whose
source fields are each None or the empty string gets the zero-source
Provide error with no effect, while a request with one non-empty source
field and every other source field None or empty counts as exactly one
source, whichever fields are involved, and neither arity error can be
returned. -/
theorem claim_C10 (env : Env) (req : Request) :
    ((req.audio_base64 = none ∨ req.audio_base64 = some "") →
     (req.audio_url = none ∨ req.audio_url = some "") →
     (req.audio_path = none ∨ req.audio_path = some "") →
      transcribe env req =
        (mkError "Provide one of: audio_base64, audio_url, or audio_path",
         [])) ∧
    (∀ s : String, s ≠ "" →
      ((req.audio_base64 = some s ∧
        (req.audio_url = none ∨ req.audio_url = some "") ∧
        (req.audio_path = none ∨ req.audio_path = some "")) ∨
       (req.audio_url = some s ∧
        (req.audio_base64 = none ∨ req.audio_base64 = some "") ∧
        (req.audio_path = none ∨ req.audio_path = some "")) ∨
       (req.audio_path = some s ∧
        (req.audio_base64 = none ∨ req.audio_base64 = some "") ∧
        (req.audio_url = none ∨ req.audio_url = some ""))) →
      provided_sources req = 1 ∧
      (transcribe env req).1 ≠
        mkError "Provide one of: audio_base64, audio_url, or audio_path" ∧
      (transcribe env req).1 ≠
        mkError "Provide only one of: audio_base64, audio_url, or audio_path") := by
  have hfe : ∀ o : Option String, o = none ∨ o = some "" →
      pyTruthy o = false := by
    rintro o (rfl | rfl) <;> rfl
  constructor
  · intro hb hu hp
    have h0 : provided_sources req = 0 := by
      simp [provided_sources, hfe _ hb, hfe _ hu, hfe _ hp]
    simp [transcribe, h0]
  · intro s hs hcase
    have hts : pyTruthy (some s) = true := by
      simpa [pyTruthy, bne_iff_ne] using hs
    have h1 : provided_sources req = 1 := by
      rcases hcase with ⟨hx, hy, hz⟩ | ⟨hx, hy, hz⟩ | ⟨hx, hy, hz⟩
      · simp [provided_sources, hx, hts, hfe _ hy, hfe _ hz]
      · simp [provided_sources, hx, hts, hfe _ hy, hfe _ hz]
      · simp [provided_sources, hx, hts, hfe _ hy, hfe _ hz]
    exact ⟨h1, transcribe_ne_provide env req (by omega) (by omega)⟩

/-- Witness for C10: the empty string alone in audio_url yields the
zero-source error, and a non-empty audio_base64 next to an empty-string
audio_url counts as exactly one source. -/
theorem claim_C10_witness :
    transcribe env0 (⟨none, some "", none, "text", none⟩ : Request) =
      (mkError "Provide one of: audio_base64, audio_url, or audio_path",
       []) ∧
    (provided_sources ⟨some "x", some "", none, "text", none⟩ = 1 ∧
     (transcribe env0 (⟨some "x", some "", none, "text", none⟩ : Request)).1 ≠
       mkError "Provide one of: audio_base64, audio_url, or audio_path" ∧
     (transcribe env0 (⟨some "x", some "", none, "text", none⟩ : Request)).1 ≠
       mkError "Provide only one of: audio_base64, audio_url, or audio_path") :=
  ⟨(claim_C10 env0 ⟨none, some "", none, "text", none⟩).1
     (Or.inl rfl) (Or.inr rfl) (Or.inl rfl),
   (claim_C10 env0 ⟨some "x", some "", none, "text", none⟩).2 "x" (by decide)
     (Or.inl ⟨rfl, Or.inr rfl, Or.inl rfl⟩)⟩

/-- The trace of `afterResolve`: either it stops after the conditional
transcode, or it continues with exactly one detection call and one ASR
call. -/
theorem afterResolve_trace_cases (env : Env) (fmt : OutputFormat)
    (d : List Nat) (fn : String) (t1 : List Call) :
    (afterResolve env fmt d fn t1).2 = t1 ++ (convertIfNeeded env d fn).2 ∨
    ∃ ps, (afterResolve env fmt d fn t1).2 =
      t1 ++ (convertIfNeeded env d fn).2 ++ [Call.postDetect] ++
        [Call.postAsr ps] := by
  unfold afterResolve
  split
  · left; rfl
  · split
    · right; exact ⟨_, rfl⟩
    · right; exact ⟨_, rfl⟩

/-- Claim C5: once the audio is resolved, the transcode client is invoked
exactly once when the sniffer reports the bytes are not MP3 and never when
it reports MP3; when the transcode call fails, the result is the
conversion error and neither the detection nor the transcription endpoint
is ever called. -/
theorem claim_C5 (env : Env) (req : Request) (fmt : OutputFormat)
    (d : List Nat) (fn : String) (t1 : List Call)
    (h0 : provided_sources req = 1)
    (h2 : OutputFormat.fromValue (pyLower req.output_format) = some fmt)
    (h3 : getAudioData env req = (GetResult.gotData d fn, t1)) :
    (is_mp3 d = true →
      ((transcribe env req).2.countP fun c => c.isConvert) = 0) ∧
    (is_mp3 d = false →
      ((transcribe env req).2.countP fun c => c.isConvert) = 1) ∧
    (∀ e tc, convert_to_mp3 env d fn = (.error e, tc) → is_mp3 d = false →
      (transcribe env req).1 =
        mkError ("Failed to convert audio to MP3: " ++ e) ∧
      ((transcribe env req).2.countP fun c => c.isDetect) = 0 ∧
      ((transcribe env req).2.countP fun c => c.isAsr) = 0) := by
  have hz : provided_sources req ≠ 0 := by omega
  have hm : ¬provided_sources req > 1 := by omega
  rw [transcribe_gotData env req fmt d fn t1 hz hm h2 h3]
  obtain ⟨ht1c, ht1d, ht1a⟩ := getAudioData_trace env req _ _ h3
  refine ⟨?_, ?_, ?_⟩
  · intro h
    rcases afterResolve_trace_cases env fmt d fn t1 with htr | ⟨ps, htr⟩ <;>
      (rw [htr]
       simp only [List.countP_append]
       rw [ht1c, convertIfNeeded_trace, h]
       simp [List.countP_cons, Call.isConvert])
  · intro h
    rcases afterResolve_trace_cases env fmt d fn t1 with htr | ⟨ps, htr⟩ <;>
      (rw [htr]
       simp only [List.countP_append]
       rw [ht1c, convertIfNeeded_trace, h]
       simp [List.countP_cons, Call.isConvert])
  · intro e tc hcv hmp
    have hc1 : (convertIfNeeded env d fn).1 = .error e := by
      simp [convertIfNeeded, hmp, hcv]
    rw [afterResolve_convError env fmt d fn t1 e hc1]
    refine ⟨rfl, ?_, ?_⟩ <;>
      (simp only [List.countP_append]
       rw [convertIfNeeded_trace, hmp]
       first
       | (rw [ht1d]; simp [List.countP_cons, Call.isDetect])
       | (rw [ht1a]; simp [List.countP_cons, Call.isAsr]))

/-- Witness for C5: a resolved non-MP3 file with a failing transcode
service — one transcode call, the conversion error, no ASR calls. -/
theorem claim_C5_witness :
    is_mp3 [0x52, 0x49, 0x46, 0x46] = false ∧
    ((transcribe envConvFail { audio_path := some "/a.wav" }).2.countP
      fun c => c.isConvert) = 1 ∧
    (transcribe envConvFail { audio_path := some "/a.wav" }).1 =
      mkError ("Failed to convert audio to MP3: " ++ "connection refused") ∧
    ((transcribe envConvFail { audio_path := some "/a.wav" }).2.countP
      fun c => c.isDetect) = 0 ∧
    ((transcribe envConvFail { audio_path := some "/a.wav" }).2.countP
      fun c => c.isAsr) = 0 := by
  have h := claim_C5 envConvFail { audio_path := some "/a.wav" }
    OutputFormat.TEXT [0x52, 0x49, 0x46, 0x46] "a.wav" [Call.fsRead "/a.wav"]
    rfl rfl rfl
  obtain ⟨h1, h2, h3⟩ := h
  have hc := h3 "connection refused" [Call.postConvert "a.wav"] rfl rfl
  exact ⟨rfl, h2 rfl, hc.1, hc.2.1, hc.2.2⟩

/-- Claim C6: when language detection fails — a raised transport or decode
exception, a non-200 response, or a 200 JSON body carrying neither
language_code nor detected_language — the pipeline does not abort: the ASR
endpoint is still called with only the output parameter (language
omitted), and a successful final result carries a null
detected_language. -/
theorem claim_C6 (env : Env) (req : Request) (fmt : OutputFormat)
    (d : List Nat) (fn : String) (t1 : List Call) (a2 : List Nat)
    (h0 : provided_sources req = 1)
    (h2 : OutputFormat.fromValue (pyLower req.output_format) = some fmt)
    (h3 : getAudioData env req = (GetResult.gotData d fn, t1))
    (h4 : (convertIfNeeded env d fn).1 = .ok a2)
    (h5 : (∃ e, env.postDetect a2 = .error e) ∨
          (∃ r, env.postDetect a2 = .ok r ∧ r.status ≠ 200) ∨
          (∃ r body, env.postDetect a2 = .ok r ∧ r.status = 200 ∧
            r.jsonBody = some body ∧
            jsonGetStr body "language_code" = none ∧
            jsonGetStr body "detected_language" = none)) :
    Call.postAsr [("output", fmt.value)] ∈ (transcribe env req).2 ∧
    ((∃ e, (transcribe env req).1 =
        mkError ("Transcription failed: " ++ e)) ∨
      ∃ tr, (transcribe env req).1 =
        [("transcription", JVal.str tr), ("detected_language", JVal.null),
         ("output_format", JVal.str fmt.value)]) := by
  have hz : provided_sources req ≠ 0 := by omega
  have hm : ¬provided_sources req > 1 := by omega
  rw [transcribe_gotData env req fmt d fn t1 hz hm h2 h3]
  have hdl : detectOutcome (detect_language env a2).1 = none := by
    rcases h5 with ⟨e, he⟩ | ⟨r, he, hr⟩ | ⟨r, body, he, hr, hb, hl, hd2⟩
    · simp [detect_language, he, detectOutcome]
    · simp [detect_language, he, hr, detectOutcome]
    · simp [detect_language, he, hr, hb, detectOutcome, pyOr, pyTruthy, hl, hd2]
  have hps : asrParams (detectOutcome (detect_language env a2).1) fmt =
      [("output", fmt.value)] := by
    rw [hdl]; rfl
  rcases ht : (transcribe_audio_data env a2
      (detectOutcome (detect_language env a2).1) fmt).1 with e | tr
  · rw [afterResolve_asrError env fmt d fn t1 a2 e h4 ht]
    refine ⟨?_, Or.inl ⟨e, rfl⟩⟩
    simp [hps]
  · rw [afterResolve_asrOk env fmt d fn t1 a2 tr h4 ht]
    refine ⟨?_, Or.inr ⟨tr, ?_⟩⟩
    · simp [hps]
    · rw [hdl]; rfl

/-- Witness for C6: the detection endpoint answers 500; the ASR call still
happens with language omitted and the result has a null language. -/
theorem claim_C6_witness :
    Call.postAsr [("output", OutputFormat.TEXT.value)] ∈
      (transcribe envDetectMiss { audio_path := some "/a.wav" }).2 ∧
    ((∃ e, (transcribe envDetectMiss { audio_path := some "/a.wav" }).1 =
        mkError ("Transcription failed: " ++ e)) ∨
      ∃ tr, (transcribe envDetectMiss { audio_path := some "/a.wav" }).1 =
        [("transcription", JVal.str tr), ("detected_language", JVal.null),
         ("output_format", JVal.str OutputFormat.TEXT.value)]) :=
  claim_C6 envDetectMiss { audio_path := some "/a.wav" } OutputFormat.TEXT
    [0x52, 0x49, 0x46, 0x46] "a.wav" [Call.fsRead "/a.wav"] [0xff, 0xfb]
    rfl rfl rfl rfl
    (Or.inr (Or.inl ⟨{ status := 500, jsonBody := none }, rfl, by decide⟩))

/-- Claim C7: when the ASR transcription call fails, the result is exactly
the transcription error carrying the upstream detail, with no success
keys. -/
theorem claim_C7 (env : Env) (req : Request) (fmt : OutputFormat)
    (d : List Nat) (fn : String) (t1 : List Call) (a2 : List Nat)
    (e : String) (t4 : List Call)
    (h0 : provided_sources req = 1)
    (h2 : OutputFormat.fromValue (pyLower req.output_format) = some fmt)
    (h3 : getAudioData env req = (GetResult.gotData d fn, t1))
    (h4 : (convertIfNeeded env d fn).1 = .ok a2)
    (h6 : transcribe_audio_data env a2
      (detectOutcome (detect_language env a2).1) fmt = (.error e, t4)) :
    (transcribe env req).1 = mkError ("Transcription failed: " ++ e) ∧
    keysOf (transcribe env req).1 = ["error"] := by
  have hz : provided_sources req ≠ 0 := by omega
  have hm : ¬provided_sources req > 1 := by omega
  rw [transcribe_gotData env req fmt d fn t1 hz hm h2 h3]
  have ht : (transcribe_audio_data env a2
      (detectOutcome (detect_language env a2).1) fmt).1 = .error e := by
    rw [h6]
  rw [afterResolve_asrError env fmt d fn t1 a2 e h4 ht]
  exact ⟨rfl, rfl⟩

/-- Witness for C7: the ASR call raises a transport error. -/
theorem claim_C7_witness :
    (transcribe envAsrFail { audio_path := some "/a.wav" }).1 =
      mkError ("Transcription failed: " ++ "connection refused") ∧
    keysOf (transcribe envAsrFail { audio_path := some "/a.wav" }).1 =
      ["error"] :=
  claim_C7 envAsrFail { audio_path := some "/a.wav" } OutputFormat.TEXT
    [0x52, 0x49, 0x46, 0x46] "a.wav" [Call.fsRead "/a.wav"] [0xff, 0xfb]
    "connection refused"
    [Call.postAsr [("output", "text"), ("language", "en")]]
    rfl rfl rfl rfl rfl

/-- Claim C9: on a successful (2xx) ASR response, the transcription field
of the result is the service's raw response body, unmodified, for every
output format — including json, whose body is passed through as a
string. -/
theorem claim_C9 (env : Env) (req : Request) (fmt : OutputFormat)
    (d : List Nat) (fn : String) (t1 : List Call) (a2 : List Nat)
    (r : AsrResp)
    (h0 : provided_sources req = 1)
    (h2 : OutputFormat.fromValue (pyLower req.output_format) = some fmt)
    (h3 : getAudioData env req = (GetResult.gotData d fn, t1))
    (h4 : (convertIfNeeded env d fn).1 = .ok a2)
    (h6 : env.postAsr a2
      (asrParams (detectOutcome (detect_language env a2).1) fmt) = .ok r)
    (h7 : is2xx r.status = true) :
    (transcribe env req).1 =
      [("transcription", JVal.str r.text),
       ("detected_language", optStr (detectOutcome (detect_language env a2).1)),
       ("output_format", JVal.str fmt.value)] := by
  have hz : provided_sources req ≠ 0 := by omega
  have hm : ¬provided_sources req > 1 := by omega
  rw [transcribe_gotData env req fmt d fn t1 hz hm h2 h3]
  have ht : (transcribe_audio_data env a2
      (detectOutcome (detect_language env a2).1) fmt).1 = .ok r.text := by
    simp [transcribe_audio_data, h6, h7]
  rw [afterResolve_asrOk env fmt d fn t1 a2 r.text h4 ht]

/-- Witness for C9 with the json output format: the raw body string lands
in the transcription field unparsed. -/
theorem claim_C9_witness :
    (transcribe envOk
        { audio_path := some "/a.wav", output_format := "json" }).1 =
      [("transcription", JVal.str "raw body"),
       ("detected_language",
        optStr (detectOutcome (detect_language envOk [0xff, 0xfb]).1)),
       ("output_format", JVal.str OutputFormat.JSON.value)] :=
  claim_C9 envOk { audio_path := some "/a.wav", output_format := "json" }
    OutputFormat.JSON [0x52, 0x49, 0x46, 0x46] "a.wav"
    [Call.fsRead "/a.wav"] [0xff, 0xfb] { status := 200, text := "raw body" }
    rfl rfl rfl rfl rfl rfl

end WhisperAsr
